import Mathlib

/-!
Shallow embedding of the validation core of the CondoStatus repository
(`src/lib/validation.ts`): the string sanitizer, the file-upload guard and
the schema-driven validation engine, with theorems settling the spec claims.

Strings are modelled as Lean `String`s (lists of characters); the character
level work is done on `String.data`.  JavaScript numbers that the claims
exercise are integers, so numbers are embedded as `Int`/`Nat`.
-/

namespace CondoStatus

/-! ## String sanitizer (`sanitizeString`) -/

/-- One global single-character replacement, the meaning of
`input.replace(/c/g, repl)` for a one-character pattern: every occurrence
of `t` becomes the character list `repl`. -/
def replaceChar (t : Char) (repl : List Char) : List Char → List Char
  | [] => []
  | c :: cs => (if c = t then repl else [c]) ++ replaceChar t repl cs

/-- The double-quote character `"` (written numerically so the file stays
free of quote characters outside string literals). -/
def quoteChar : Char := Char.ofNat 34

/-- The apostrophe character. -/
def apoChar : Char := Char.ofNat 39

/-- Replacement text for `<`. -/
def ltRepl : List Char := ['&', 'l', 't', ';']

/-- Replacement text for `>`. -/
def gtRepl : List Char := ['&', 'g', 't', ';']

/-- Replacement text for the double quote. -/
def quotRepl : List Char := ['&', 'q', 'u', 'o', 't', ';']

/-- Replacement text for the apostrophe. -/
def apoRepl : List Char := ['&', '#', 'x', '2', '7', ';']

/-- Replacement text for `/`. -/
def slashRepl : List Char := ['&', '#', 'x', '2', 'F', ';']

/-- The five sequential replacements of `sanitizeString`, in source order:
`<`, `>`, `"`, the apostrophe, `/`. -/
def sanitizeList (s : List Char) : List Char :=
  replaceChar '/' slashRepl
    (replaceChar apoChar apoRepl
      (replaceChar quoteChar quotRepl
        (replaceChar '>' gtRepl
          (replaceChar '<' ltRepl s))))

/-- `sanitizeString` from `src/lib/validation.ts`. -/
def sanitizeString (input : String) : String :=
  ⟨sanitizeList input.data⟩

/-- A character the sanitizer targets: `<`, `>`, `"`, the apostrophe or `/`. -/
def dangerousChar (c : Char) : Bool :=
  c = '<' || c = '>' || c = quoteChar || c = apoChar || c = '/'

/-! ## File-upload guard (`validateFileUpload`) -/

/-- The metadata of an uploaded file: declared media type, byte size, name. -/
structure FileDesc where
  type : String
  size : Nat
  name : String
  deriving DecidableEq, Repr

/-- Result shape `{ valid: boolean; error?: string }`. -/
structure FileValidationResult where
  valid : Bool
  error : Option String
  deriving DecidableEq, Repr

/-- Does the character list contain two consecutive dots (regex `/\.\./`)? -/
def hasDotDot : List Char → Bool
  | c1 :: c2 :: rest => (c1 = '.' && c2 = '.') || hasDotDot (c2 :: rest)
  | _ => false

/-- Membership in the reserved character class of the name check. -/
def reservedChar (c : Char) : Bool :=
  c = '<' || c = '>' || c = ':' || c = quoteChar || c = '|' || c = '?' || c = '*'

/-- Does the character list start with a dot (regex `/^\./`)? -/
def startsWithDot : List Char → Bool
  | '.' :: _ => true
  | _ => false

/-- The suspicious-name test: some pattern of
`[/\.\./, /[<>:"|?*]/, /^\./, /\x00/]` matches the name. -/
def suspiciousName (name : String) : Bool :=
  hasDotDot name.data || name.data.any reservedChar || startsWithDot name.data
    || name.data.any (fun c => c = Char.ofNat 0)

/-- `validateFileUpload` from `src/lib/validation.ts`, check for check in
source order with early returns. -/
def validateFileUpload (file : FileDesc) : FileValidationResult :=
  if file.type ≠ "application/pdf" then
    ⟨false, some "Only PDF files are allowed"⟩
  else if file.size > 50 * 1024 * 1024 then
    ⟨false, some "File size must be less than 50MB"⟩
  else if file.name = "" ∨ file.name.length > 255 then
    ⟨false, some "Invalid file name"⟩
  else if suspiciousName file.name then
    ⟨false, some "Invalid file name"⟩
  else
    ⟨true, none⟩

/-! ## Validation engine

The schemas of `src/lib/validation.ts` are declared through the `zod`
library, whose engine is not part of the repository's sources.  The engine
below is modelled from the spec (sections 4.1 to 4.3): per-field lookup,
optional fields and defaults, coercion, a fixed check order, collection of
every violation across all fields, and the `"<field-path>: <message>"`
comma-and-space joined failure string.  The constraint declarations
themselves are transcribed from the source file. -/

/-- An untrusted JSON-like input value.  The numeric payloads the claims
exercise are integers, so numbers are embedded as `Int`. -/
inductive JValue where
  | jnull
  | jbool (b : Bool)
  | jnum (n : Int)
  | jstr (s : String)
  | jobj (fields : List (String × JValue))

/-- The type name used in mismatch messages. -/
def typeName : JValue → String
  | .jnull => "null"
  | .jbool _ => "boolean"
  | .jnum _ => "number"
  | .jstr _ => "string"
  | .jobj _ => "object"

/-- Is the character an ASCII hexadecimal digit? -/
def isHexChar (c : Char) : Bool :=
  c.isDigit || ('a' ≤ c && c ≤ 'f') || ('A' ≤ c && c ≤ 'F')

/-- Modelled from the spec: the well-formed unique-identifier format, "a
canonical 36-character hyphenated hexadecimal token format" (hyphens at
positions 8, 13, 18 and 23, hexadecimal digits elsewhere). -/
def uuidOk (s : String) : Bool :=
  s.data.length = 36 && (List.range 36).all (fun i =>
    if i = 8 || i = 13 || i = 18 || i = 23 then s.data.getD i ' ' = '-'
    else isHexChar (s.data.getD i ' '))

/-- Split a character list at the first occurrence of `c`. -/
def splitAtChar (c : Char) : List Char → Option (List Char × List Char)
  | [] => none
  | x :: rest =>
    if x = c then some ([], rest)
    else
      match splitAtChar c rest with
      | some (a, b) => some (x :: a, b)
      | none => none

/-- Modelled from the spec: the well-formed email format, a non-empty
local-part, one `@`, and a domain-part containing at least one dot. -/
def emailOk (s : String) : Bool :=
  match splitAtChar (Char.ofNat 64) s.data with
  | some (loc, domain) =>
      loc ≠ [] && domain ≠ [] && domain.all (fun c => c ≠ Char.ofNat 64)
        && domain.any (fun c => c = '.')
  | none => false

/-- Does the tail of a date-time string close correctly: a bare `Z`, or a
dot, at least one fractional digit and a final `Z`? -/
def dtTail : List Char → Bool
  | ['Z'] => true
  | '.' :: rest =>
      rest.length ≥ 2 && rest.dropLast.all Char.isDigit && rest.getLast? = some 'Z'
  | _ => false

/-- Modelled from the spec: the ISO-8601 date-time format
`YYYY-MM-DDTHH:MM:SS` with an optional fraction and a final `Z`. -/
def datetimeOk (s : String) : Bool :=
  match s.data with
  | y1 :: y2 :: y3 :: y4 :: '-' :: m1 :: m2 :: '-' :: d1 :: d2 :: 'T' ::
      h1 :: h2 :: ':' :: n1 :: n2 :: ':' :: s1 :: s2 :: rest =>
      [y1, y2, y3, y4, m1, m2, d1, d2, h1, h2, n1, n2, s1, s2].all Char.isDigit
        && dtTail rest
  | _ => false

/-- One constraint on a string field, with its failure message. -/
inductive StrCheck where
  | minLen (n : Nat) (msg : String)
  | maxLen (n : Nat) (msg : String)
  | uuid (msg : String)
  | email (msg : String)
  | datetime (msg : String)

/-- One constraint on a numeric field, with its failure message.  The
integrality check always passes in this embedding because numbers are
already integers; it is kept so the declared check lists match the source. -/
inductive NumCheck where
  | isInt (msg : String)
  | positive (msg : String)
  | minNum (m : Int) (msg : String)
  | maxNum (m : Int) (msg : String)

/-- The type and constraints of one schema field. -/
inductive FieldType where
  | fstr (checks : List StrCheck)
  | fnum (coerce : Bool) (checks : List NumCheck)
  | fbool
  | fenum (allowed : List String) (msg : String)
  | flit (value : String) (msg : String)

/-- A schema field: its type with constraints, whether absence is allowed,
and the default substituted when the input omits the field. -/
structure FieldSpec where
  type : FieldType
  optional : Bool
  dflt : Option JValue

/-- A schema: the declared fields in declaration order. -/
abbrev Schema := List (String × FieldSpec)

/-- Run one string constraint, returning its message on violation. -/
def runStrCheck (s : String) : StrCheck → Option String
  | .minLen n msg => if s.length < n then some msg else none
  | .maxLen n msg => if n < s.length then some msg else none
  | .uuid msg => if uuidOk s then none else some msg
  | .email msg => if emailOk s then none else some msg
  | .datetime msg => if datetimeOk s then none else some msg

/-- Run one numeric constraint, returning its message on violation. -/
def runNumCheck (n : Int) : NumCheck → Option String
  | .isInt _ => none
  | .positive msg => if n ≤ 0 then some msg else none
  | .minNum m msg => if n < m then some msg else none
  | .maxNum m msg => if m < n then some msg else none

/-- The numeric value of a list of decimal digits. -/
def digitsVal (cs : List Char) : Nat :=
  cs.foldl (fun a c => a * 10 + (c.toNat - 48)) 0

/-- Decimal integer parsing of a string, the integer fragment of the
source language's string-to-number conversion: the empty string reads as
zero, an optional leading minus sign, and any non-digit yields no number. -/
def parseDec : List Char → Option Int
  | [] => some 0
  | '-' :: rest =>
      if rest ≠ [] && rest.all Char.isDigit then some (-(digitsVal rest : Int)) else none
  | cs => if cs.all Char.isDigit then some (digitsVal cs : Int) else none

/-- Coercion of an input value to a number, the source language's numeric
conversion on the value shapes of this embedding; `none` stands for NaN. -/
def toNumber : JValue → Option Int
  | .jnum n => some n
  | .jbool b => some (if b then 1 else 0)
  | .jnull => some 0
  | .jstr s => parseDec s.data
  | .jobj _ => none

/-- Check a present value against a field type: the normalized value, or
every violated constraint's message in check order. -/
def runChecks : FieldType → JValue → Except (List String) JValue
  | .fstr checks, .jstr s =>
      match checks.filterMap (runStrCheck s) with
      | [] => .ok (.jstr s)
      | msgs => .error msgs
  | .fstr _, v => .error ["Expected string, received " ++ typeName v]
  | .fnum true checks, v =>
      match toNumber v with
      | some n =>
          match checks.filterMap (runNumCheck n) with
          | [] => .ok (.jnum n)
          | msgs => .error msgs
      | none => .error ["Expected number, received nan"]
  | .fnum false checks, .jnum n =>
      match checks.filterMap (runNumCheck n) with
      | [] => .ok (.jnum n)
      | msgs => .error msgs
  | .fnum false _, v => .error ["Expected number, received " ++ typeName v]
  | .fbool, .jbool b => .ok (.jbool b)
  | .fbool, v => .error ["Expected boolean, received " ++ typeName v]
  | .fenum allowed msg, .jstr s => if s ∈ allowed then .ok (.jstr s) else .error [msg]
  | .fenum _ msg, _ => .error [msg]
  | .flit value msg, .jstr s => if s = value then .ok (.jstr s) else .error [msg]
  | .flit _ msg, _ => .error [msg]

/-- Check one field against what the input holds for it: `ok none` omits
the field from the output, `ok (some v)` is its normalized value.  An
absent field takes the declared default if any, is skipped if optional,
and is otherwise a required-field violation. -/
def checkField (sp : FieldSpec) : Option JValue → Except (List String) (Option JValue)
  | none =>
      match sp.dflt with
      | some d => .ok (some d)
      | none => if sp.optional then .ok none else .error ["Required"]
  | some v =>
      match runChecks sp.type v with
      | .ok w => .ok (some w)
      | .error msgs => .error msgs

/-- First value bound to a key in an input object. -/
def lookupField (n : String) : List (String × JValue) → Option JValue
  | [] => none
  | (k, v) :: rest => if k = n then some v else lookupField n rest

/-- The violations of one field, each rendered as `"<field-path>: <message>"`
(every schema here is flat, so the dot-joined path is the field name). -/
def fieldErrs (n : String) (sp : FieldSpec) (r : Option JValue) : List String :=
  match checkField sp r with
  | .error msgs => msgs.map (fun m => n ++ ": " ++ m)
  | .ok _ => []

/-- All rendered violations, field by field in schema declaration order. -/
def collectErrors : Schema → List (String × JValue) → List String
  | [], _ => []
  | (n, sp) :: rest, fields =>
      fieldErrs n sp (lookupField n fields) ++ collectErrors rest fields

/-- The output entry a field contributes when it checks out. -/
def fieldOut (n : String) (sp : FieldSpec) (r : Option JValue) : List (String × JValue) :=
  match checkField sp r with
  | .ok (some v) => [(n, v)]
  | _ => []

/-- The normalized output object: declared fields only, in declaration
order, with coercions and defaults applied. -/
def collectOutput : Schema → List (String × JValue) → List (String × JValue)
  | [], _ => []
  | (n, sp) :: rest, fields =>
      fieldOut n sp (lookupField n fields) ++ collectOutput rest fields

/-- The discriminated result of `validateInput`. -/
inductive VResult where
  | success (data : JValue)
  | failure (error : String)

/-- Is the result a failure? -/
def isFailure : VResult → Bool
  | .failure _ => true
  | .success _ => false

/-- `validateInput` from `src/lib/validation.ts` over the modelled engine:
parse the input against the schema; on success return the normalized data,
otherwise join every rendered violation with a comma and a space. -/
def validateInput (schema : Schema) (data : JValue) : VResult :=
  match data with
  | .jobj fields =>
      if collectErrors schema fields = [] then
        .success (.jobj (collectOutput schema fields))
      else
        .failure (String.intercalate ", " (collectErrors schema fields))
  | v => .failure (": Expected object, received " ++ typeName v)

/-! ## Schema registry (`src/lib/validation.ts`) -/

/-- The `uuidSchema` string validator. -/
def uuidField : FieldSpec := ⟨.fstr [.uuid "Invalid UUID format"], false, none⟩

/-- The `emailSchema` string validator. -/
def emailField : FieldSpec := ⟨.fstr [.email "Invalid email format"], false, none⟩

/-- The `itemId` field shared by the note and verification schemas. -/
def itemIdField : FieldSpec :=
  ⟨.fstr [.minLen 1 "Item ID is required", .maxLen 100 "Item ID too long"], false, none⟩

/-- `reportIdSchema`. -/
def reportIdSchema : Schema := [("id", uuidField)]

/-- `reportUpdateSchema`. -/
def reportUpdateSchema : Schema :=
  [("id", uuidField),
   ("status", ⟨.fenum ["draft", "reviewed", "sent"] "Invalid enum value", true, none⟩),
   ("notes", ⟨.fstr [.maxLen 10000 "Notes too long"], true, none⟩)]

/-- `noteSchema`: the `note` field carries only a maximum-length bound. -/
def noteSchema : Schema :=
  [("reportId", uuidField),
   ("itemId", itemIdField),
   ("note", ⟨.fstr [.maxLen 5000 "Note too long"], false, none⟩)]

/-- `verificationSchema`. -/
def verificationSchema : Schema :=
  [("reportId", uuidField),
   ("itemId", itemIdField),
   ("verified", ⟨.fbool, false, none⟩)]

/-- `checkoutSchema`. -/
def checkoutSchema : Schema :=
  [("plan", ⟨.fenum ["monthly", "yearly"] "Invalid plan. Must be monthly or yearly.",
    false, none⟩)]

/-- `signupSchema`. -/
def signupSchema : Schema :=
  [("email", emailField),
   ("password", ⟨.fstr [.minLen 8 "Password must be at least 8 characters",
      .maxLen 100 "Password too long"], false, none⟩),
   ("fullName", ⟨.fstr [.minLen 1 "Name is required", .maxLen 100 "Name too long"],
      true, none⟩),
   ("firmName", ⟨.fstr [.maxLen 200 "Firm name too long"], true, none⟩)]

/-- `loginSchema`. -/
def loginSchema : Schema :=
  [("email", emailField),
   ("password", ⟨.fstr [.minLen 1 "Password is required"], false, none⟩)]

/-- `profileUpdateSchema`. -/
def profileUpdateSchema : Schema :=
  [("fullName", ⟨.fstr [.maxLen 100 "Name too long"], true, none⟩),
   ("firmName", ⟨.fstr [.maxLen 200 "Firm name too long"], true, none⟩),
   ("phone", ⟨.fstr [.maxLen 20 "Phone number too long"], true, none⟩)]

/-- The `page` field of `paginationSchema`: coerced positive integer,
default 1. -/
def pageField : FieldSpec :=
  ⟨.fnum true [.isInt "Expected integer, received float",
    .positive "Number must be greater than 0"], false, some (.jnum 1)⟩

/-- The `limit` field of `paginationSchema`: coerced integer between 1 and
100, default 20. -/
def limitField : FieldSpec :=
  ⟨.fnum true [.isInt "Expected integer, received float",
    .minNum 1 "Number must be greater than or equal to 1",
    .maxNum 100 "Number must be less than or equal to 100"], false, some (.jnum 20)⟩

/-- `paginationSchema`. -/
def paginationSchema : Schema := [("page", pageField), ("limit", limitField)]

/-- `reportFilterSchema`: the filter fields merged with the pagination
fields (field-set union at construction time). -/
def reportFilterSchema : Schema :=
  [("status", ⟨.fenum ["draft", "reviewed", "sent"] "Invalid enum value", true, none⟩),
   ("search", ⟨.fstr [.maxLen 200 "String must contain at most 200 characters"],
      true, none⟩),
   ("startDate", ⟨.fstr [.datetime "Invalid datetime"], true, none⟩),
   ("endDate", ⟨.fstr [.datetime "Invalid datetime"], true, none⟩)]
  ++ paginationSchema

/-- `fileUploadSchema`, the zod counterpart of the upload guard. -/
def fileUploadSchema : Schema :=
  [("type", ⟨.flit "application/pdf" "Only PDF files are allowed", false, none⟩),
   ("size", ⟨.fnum false [.maxNum (50 * 1024 * 1024) "File size must be less than 50MB"],
      false, none⟩),
   ("name", ⟨.fstr [.minLen 1 "File name is required"], false, none⟩)]

/-- A required string field rejects the empty string: every input binding
the field to `""` fails validation. -/
def rejectsEmpty (schema : Schema) (fname : String) : Prop :=
  ∀ fields, lookupField fname fields = some (.jstr "") →
    isFailure (validateInput schema (.jobj fields)) = true

/-! ## Lemmas about the sanitizer -/

/-- A character of `replaceChar t repl l` comes from the replacement text or
is a character of `l` other than the target. -/
theorem mem_replaceChar {c t : Char} {repl : List Char} :
    ∀ {l : List Char}, c ∈ replaceChar t repl l → c ∈ repl ∨ (c ∈ l ∧ c ≠ t) := by
  intro l h
  induction l with
  | nil => simp [replaceChar] at h
  | cons a cs ih =>
    rw [replaceChar] at h
    rcases List.mem_append.mp h with h1 | h2
    · by_cases ha : a = t
      · rw [if_pos ha] at h1
        exact Or.inl h1
      · rw [if_neg ha] at h1
        simp at h1
        subst h1
        exact Or.inr ⟨List.mem_cons_self _ _, ha⟩
    · rcases ih h2 with h3 | ⟨h4, h5⟩
      · exact Or.inl h3
      · exact Or.inr ⟨List.mem_cons_of_mem _ h4, h5⟩

/-- Replacing a character that does not occur changes nothing. -/
theorem replaceChar_of_not_mem {t : Char} {repl : List Char} :
    ∀ {l : List Char}, t ∉ l → replaceChar t repl l = l := by
  intro l h
  induction l with
  | nil => rfl
  | cons a cs ih =>
    have hat : ¬ a = t := fun hat => h (by rw [hat]; exact List.mem_cons_self _ _)
    rw [replaceChar, if_neg hat, ih (fun hm => h (List.mem_cons_of_mem _ hm))]
    rfl

/-- No character of a sanitized list is one of the five targets: each
replacement text is free of them and every occurrence is replaced. -/
theorem sanitizeList_no_dangerous {c : Char} {l : List Char} (h : c ∈ sanitizeList l) :
    dangerousChar c = false := by
  have hsafe : ∀ r ∈ [ltRepl, gtRepl, quotRepl, apoRepl, slashRepl],
      ∀ c2 ∈ r, dangerousChar c2 = false := by decide
  unfold sanitizeList at h
  rcases mem_replaceChar h with h1 | ⟨h2, hslash⟩
  · exact hsafe _ (by simp) _ h1
  rcases mem_replaceChar h2 with h3 | ⟨h4, hapo⟩
  · exact hsafe _ (by simp) _ h3
  rcases mem_replaceChar h4 with h5 | ⟨h6, hquot⟩
  · exact hsafe _ (by simp) _ h5
  rcases mem_replaceChar h6 with h7 | ⟨h8, hgt⟩
  · exact hsafe _ (by simp) _ h7
  rcases mem_replaceChar h8 with h9 | ⟨h10, hlt⟩
  · exact hsafe _ (by simp) _ h9
  simp [dangerousChar, hlt, hgt, hquot, hapo, hslash]

/-- A target character never occurs in a sanitized list. -/
theorem not_mem_sanitizeList {c : Char} (hc : dangerousChar c = true) (l : List Char) :
    c ∉ sanitizeList l := fun h => by
  rw [sanitizeList_no_dangerous h] at hc
  exact Bool.false_ne_true hc

/-- Sanitizing twice equals sanitizing once, at the character-list level. -/
theorem sanitizeList_idem (l : List Char) :
    sanitizeList (sanitizeList l) = sanitizeList l := by
  have h1 : replaceChar '<' ltRepl (sanitizeList l) = sanitizeList l :=
    replaceChar_of_not_mem (not_mem_sanitizeList (by decide) l)
  have h2 : replaceChar '>' gtRepl (sanitizeList l) = sanitizeList l :=
    replaceChar_of_not_mem (not_mem_sanitizeList (by decide) l)
  have h3 : replaceChar quoteChar quotRepl (sanitizeList l) = sanitizeList l :=
    replaceChar_of_not_mem (not_mem_sanitizeList (by decide) l)
  have h4 : replaceChar apoChar apoRepl (sanitizeList l) = sanitizeList l :=
    replaceChar_of_not_mem (not_mem_sanitizeList (by decide) l)
  have h5 : replaceChar '/' slashRepl (sanitizeList l) = sanitizeList l :=
    replaceChar_of_not_mem (not_mem_sanitizeList (by decide) l)
  calc sanitizeList (sanitizeList l)
      = replaceChar '/' slashRepl (replaceChar apoChar apoRepl (replaceChar quoteChar quotRepl
          (replaceChar '>' gtRepl (replaceChar '<' ltRepl (sanitizeList l))))) := rfl
    _ = sanitizeList l := by rw [h1, h2, h3, h4, h5]

/-! ## Claim theorems about the sanitizer and the file-upload guard -/

/-- C1: the four spec test vectors of `validateFileUpload`: a traversal name
is rejected as an invalid file name, a non-PDF type is rejected, an oversize
file is rejected with the size message, and a well-formed descriptor is
accepted with no error. -/
theorem validateFileUpload_spec_vectors :
    validateFileUpload ⟨"application/pdf", 10, "../../etc/passwd"⟩ =
        ⟨false, some "Invalid file name"⟩ ∧
    validateFileUpload ⟨"image/png", 10, "a.pdf"⟩ =
        ⟨false, some "Only PDF files are allowed"⟩ ∧
    validateFileUpload ⟨"application/pdf", 60 * 1024 * 1024, "a.pdf"⟩ =
        ⟨false, some "File size must be less than 50MB"⟩ ∧
    validateFileUpload ⟨"application/pdf", 10, "report.pdf"⟩ = ⟨true, none⟩ :=
  ⟨rfl, rfl, rfl, rfl⟩

/-- C4 counterexample: contrary to the claim, there is no string on which a
second application of `sanitizeString` changes the result — the function is
idempotent, because no replacement text contains a target character and the
ampersand is never escaped. -/
theorem sanitizeString_double_apply_never_differs :
    ¬ ∃ x : String, sanitizeString (sanitizeString x) ≠ sanitizeString x := by
  rintro ⟨x, hx⟩
  exact hx (congrArg String.mk (sanitizeList_idem x.data))

/-- C4 amended: `sanitizeString` is idempotent on every input, including
already-escaped input: since `&` is never escaped, escaped entity sequences
pass through unchanged rather than being escaped again. -/
theorem sanitizeString_idempotent (x : String) :
    sanitizeString (sanitizeString x) = sanitizeString x :=
  congrArg String.mk (sanitizeList_idem x.data)

/-- C4 amended witness: idempotence at the already-escaped input
produced by sanitizing a script tag. -/
theorem sanitizeString_idempotent_witness :
    sanitizeString (sanitizeString "&lt;script&gt;") = sanitizeString "&lt;script&gt;" :=
  sanitizeString_idempotent "&lt;script&gt;"

/-- C7: the file-upload guard checks, in order, the declared type, the byte
size, the basic name shape and the forbidden name patterns, and reports the
message of the earliest violated check regardless of later violations. -/
theorem validateFileUpload_check_order :
    (∀ f : FileDesc, f.type ≠ "application/pdf" →
      validateFileUpload f = ⟨false, some "Only PDF files are allowed"⟩) ∧
    (∀ f : FileDesc, f.type = "application/pdf" → f.size > 50 * 1024 * 1024 →
      validateFileUpload f = ⟨false, some "File size must be less than 50MB"⟩) ∧
    (∀ f : FileDesc, f.type = "application/pdf" → ¬ f.size > 50 * 1024 * 1024 →
      (f.name = "" ∨ f.name.length > 255) →
      validateFileUpload f = ⟨false, some "Invalid file name"⟩) ∧
    (∀ f : FileDesc, f.type = "application/pdf" → ¬ f.size > 50 * 1024 * 1024 →
      ¬ (f.name = "" ∨ f.name.length > 255) → suspiciousName f.name = true →
      validateFileUpload f = ⟨false, some "Invalid file name"⟩) := by
  refine ⟨fun f h1 => ?_, fun f h1 h2 => ?_, fun f h1 h2 h3 => ?_, fun f h1 h2 h3 h4 => ?_⟩
  · rw [validateFileUpload, if_pos h1]
  · rw [validateFileUpload, if_neg (not_not_intro h1), if_pos h2]
  · rw [validateFileUpload, if_neg (not_not_intro h1), if_neg h2, if_pos h3]
  · rw [validateFileUpload, if_neg (not_not_intro h1), if_neg h2, if_neg h3, if_pos h4]

/-- C7 witness: a descriptor violating the type, size and name checks at
once is reported with the type message, the earliest check. -/
theorem validateFileUpload_check_order_witness :
    validateFileUpload ⟨"image/png", 60 * 1024 * 1024, "../../etc/passwd"⟩ =
      ⟨false, some "Only PDF files are allowed"⟩ :=
  validateFileUpload_check_order.1 ⟨"image/png", 60 * 1024 * 1024, "../../etc/passwd"⟩
    (by decide)

/-- C8: every character of a sanitized string is harmless: none of `<`, `>`,
the double quote, the apostrophe or `/` survives sanitization. -/
theorem sanitizeString_no_dangerous_chars (s : String) :
    (sanitizeString s).data.all (fun c => !dangerousChar c) = true := by
  rw [List.all_eq_true]
  intro c hc
  have h : dangerousChar c = false := sanitizeList_no_dangerous hc
  simp [h]

/-- C9: the 50 MiB ceiling is inclusive: a PDF descriptor of exactly
`50*1024*1024` bytes with a well-formed name is accepted, and the size
message is returned exactly for PDF descriptors strictly over the ceiling. -/
theorem validateFileUpload_size_ceiling_inclusive :
    validateFileUpload ⟨"application/pdf", 50 * 1024 * 1024, "report.pdf"⟩ = ⟨true, none⟩ ∧
    ∀ f : FileDesc, ((validateFileUpload f).error = some "File size must be less than 50MB" ↔
      f.type = "application/pdf" ∧ f.size > 50 * 1024 * 1024) := by
  refine ⟨rfl, fun f => ?_⟩
  have hs1 : ("Only PDF files are allowed" : String) ≠ "File size must be less than 50MB" := by
    decide
  have hs2 : ("Invalid file name" : String) ≠ "File size must be less than 50MB" := by decide
  unfold validateFileUpload
  split_ifs with h1 h2 h3 h4 <;> simp_all

/-- C10: for every descriptor the guard either accepts with no error or
rejects with exactly one of the three fixed messages; an error is present
exactly when `valid` is `false`. -/
theorem validateFileUpload_result_invariant (f : FileDesc) :
    ((validateFileUpload f).valid = true ∧ (validateFileUpload f).error = none) ∨
    ((validateFileUpload f).valid = false ∧
      ((validateFileUpload f).error = some "Only PDF files are allowed" ∨
       (validateFileUpload f).error = some "File size must be less than 50MB" ∨
       (validateFileUpload f).error = some "Invalid file name")) := by
  unfold validateFileUpload
  split_ifs <;> simp

/-! ## Lemmas about the validation engine -/

/-- A member field whose rendered violations are non-empty makes the whole
collected violation list non-empty. -/
theorem collectErrors_ne_nil {n : String} {sp : FieldSpec} :
    ∀ {schema : Schema} {fields : List (String × JValue)}, (n, sp) ∈ schema →
      fieldErrs n sp (lookupField n fields) ≠ [] → collectErrors schema fields ≠ [] := by
  intro schema fields hmem herr
  induction schema with
  | nil => cases hmem
  | cons head rest ih =>
    obtain ⟨m, sq⟩ := head
    rw [collectErrors]
    rcases List.mem_cons.mp hmem with heq | htail
    · injection heq with h1 h2
      subst h1; subst h2
      intro hab
      exact herr (List.append_eq_nil.mp hab).1
    · intro hab
      exact ih htail (List.append_eq_nil.mp hab).2

/-- A non-empty violation list makes `validateInput` fail. -/
theorem isFailure_of_errs {schema : Schema} {fields : List (String × JValue)}
    (h : collectErrors schema fields ≠ []) :
    isFailure (validateInput schema (.jobj fields)) = true := by
  rw [validateInput, if_neg h]
  rfl

/-- A field whose check rejects the empty string makes every input binding
it to the empty string fail. -/
theorem rejectsEmpty_of {schema : Schema} {n : String} (sp : FieldSpec)
    (hmem : (n, sp) ∈ schema) (hrej : fieldErrs n sp (some (.jstr "")) ≠ []) :
    rejectsEmpty schema n := by
  intro fields hf
  apply isFailure_of_errs
  apply collectErrors_ne_nil hmem
  rw [hf]
  exact hrej

/-- Every key of the normalized output is a key declared in the schema. -/
theorem collectOutput_keys {fields : List (String × JValue)} :
    ∀ {schema : Schema}, ∀ p ∈ collectOutput schema fields, p.1 ∈ schema.map Prod.fst := by
  intro schema
  induction schema with
  | nil => intro p hp; cases hp
  | cons head rest ih =>
    obtain ⟨n, sp⟩ := head
    intro p hp
    rw [collectOutput] at hp
    rcases List.mem_append.mp hp with h1 | h2
    · rcases hc : checkField sp (lookupField n fields) with msgs | w
      · simp only [fieldOut, hc] at h1
        cases h1
      · cases w with
        | none => simp only [fieldOut, hc] at h1; cases h1
        | some v =>
          simp only [fieldOut, hc] at h1
          simp at h1
          rw [h1]
          exact List.mem_cons_self _ _
    · exact List.mem_cons_of_mem _ (ih p h2)

/-- A declared default of a field the input omits appears in the output. -/
theorem collectOutput_default {fields : List (String × JValue)} {n : String}
    {sp : FieldSpec} {d : JValue} :
    ∀ {schema : Schema}, (n, sp) ∈ schema → sp.dflt = some d →
      lookupField n fields = none → (n, d) ∈ collectOutput schema fields := by
  intro schema hmem hdef habs
  induction schema with
  | nil => cases hmem
  | cons head rest ih =>
    obtain ⟨m, sq⟩ := head
    rw [collectOutput]
    rcases List.mem_cons.mp hmem with heq | htail
    · injection heq with h1 h2
      subst h1; subst h2
      apply List.mem_append.mpr
      left
      simp [fieldOut, habs, checkField, hdef]
    · exact List.mem_append.mpr (Or.inr (ih htail))

/-! ## Claim theorems about the validation engine -/

/-- C2 counterexample: the `note` field of the note schema is a required
string field, yet an input binding it to the empty string validates
successfully — its only constraint is a maximum length. -/
theorem noteSchema_accepts_empty_note :
    validateInput noteSchema
      (.jobj [("reportId", .jstr "123e4567-e89b-12d3-a456-426614174000"),
              ("itemId", .jstr "window-3"), ("note", .jstr "")]) =
      .success (.jobj [("reportId", .jstr "123e4567-e89b-12d3-a456-426614174000"),
              ("itemId", .jstr "window-3"), ("note", .jstr "")]) := rfl

/-- C2 amended: every required string field whose constraints include a
minimum length, a format check or a value set rejects the empty string in
every input — but the `note` field of the note schema, constrained only by
a maximum length, accepts it. -/
theorem requiredString_rejectsEmpty_except_note :
    rejectsEmpty reportIdSchema "id" ∧
    rejectsEmpty reportUpdateSchema "id" ∧
    rejectsEmpty noteSchema "reportId" ∧
    rejectsEmpty noteSchema "itemId" ∧
    rejectsEmpty verificationSchema "reportId" ∧
    rejectsEmpty verificationSchema "itemId" ∧
    rejectsEmpty checkoutSchema "plan" ∧
    rejectsEmpty signupSchema "email" ∧
    rejectsEmpty signupSchema "password" ∧
    rejectsEmpty loginSchema "email" ∧
    rejectsEmpty loginSchema "password" ∧
    rejectsEmpty fileUploadSchema "type" ∧
    rejectsEmpty fileUploadSchema "name" ∧
    validateInput noteSchema
      (.jobj [("reportId", .jstr "123e4567-e89b-12d3-a456-426614174000"),
              ("itemId", .jstr "item-7"), ("note", .jstr "")]) =
      .success (.jobj [("reportId", .jstr "123e4567-e89b-12d3-a456-426614174000"),
              ("itemId", .jstr "item-7"), ("note", .jstr "")]) := by
  refine ⟨?_, ?_, ?_, ?_, ?_, ?_, ?_, ?_, ?_, ?_, ?_, ?_, ?_, rfl⟩
  · exact rejectsEmpty_of _ (List.mem_cons_self _ _) (by decide)
  · exact rejectsEmpty_of _ (List.mem_cons_self _ _) (by decide)
  · exact rejectsEmpty_of _ (List.mem_cons_self _ _) (by decide)
  · exact rejectsEmpty_of _ (List.mem_cons_of_mem _ (List.mem_cons_self _ _)) (by decide)
  · exact rejectsEmpty_of _ (List.mem_cons_self _ _) (by decide)
  · exact rejectsEmpty_of _ (List.mem_cons_of_mem _ (List.mem_cons_self _ _)) (by decide)
  · exact rejectsEmpty_of _ (List.mem_cons_self _ _) (by decide)
  · exact rejectsEmpty_of _ (List.mem_cons_self _ _) (by decide)
  · exact rejectsEmpty_of _ (List.mem_cons_of_mem _ (List.mem_cons_self _ _)) (by decide)
  · exact rejectsEmpty_of _ (List.mem_cons_self _ _) (by decide)
  · exact rejectsEmpty_of _ (List.mem_cons_of_mem _ (List.mem_cons_self _ _)) (by decide)
  · exact rejectsEmpty_of _ (List.mem_cons_self _ _) (by decide)
  · exact rejectsEmpty_of _
      (List.mem_cons_of_mem _ (List.mem_cons_of_mem _ (List.mem_cons_self _ _))) (by decide)

/-- C2 amended witness: the report-id schema rejects an empty `id`. -/
theorem requiredString_rejectsEmpty_witness :
    isFailure (validateInput reportIdSchema (.jobj [("id", .jstr "")])) = true :=
  requiredString_rejectsEmpty_except_note.1 [("id", .jstr "")] rfl

/-- C3: on any violating input the engine fails with the rendered
violations of every field joined by a comma and a space, and an input
missing all three required note fields reports all three, not just the
first. -/
theorem validateInput_aggregates_all_violations :
    validateInput noteSchema (.jobj []) =
      .failure "reportId: Required, itemId: Required, note: Required" ∧
    ∀ (schema : Schema) (fields : List (String × JValue)),
      collectErrors schema fields ≠ [] →
      validateInput schema (.jobj fields) =
        .failure (String.intercalate ", " (collectErrors schema fields)) := by
  refine ⟨rfl, fun schema fields h => ?_⟩
  rw [validateInput, if_neg h]

/-- C3 witness: an input with only a valid `itemId` reports the two
missing required fields of the note schema in declaration order. -/
theorem validateInput_aggregates_witness :
    validateInput noteSchema (.jobj [("itemId", .jstr "x")]) =
      .failure "reportId: Required, note: Required" :=
  validateInput_aggregates_all_violations.2 noteSchema [("itemId", .jstr "x")] (by decide)

/-- C5: the three pagination spec vectors: the empty object normalizes to
page 1 and limit 20, the string page is coerced to the integer 3 with the
limit defaulted, and a limit of 101 fails. -/
theorem paginationSchema_spec_vectors :
    validateInput paginationSchema (.jobj []) =
      .success (.jobj [("page", .jnum 1), ("limit", .jnum 20)]) ∧
    validateInput paginationSchema (.jobj [("page", .jstr "3")]) =
      .success (.jobj [("page", .jnum 3), ("limit", .jnum 20)]) ∧
    isFailure (validateInput paginationSchema (.jobj [("limit", .jnum 101)])) = true :=
  ⟨rfl, rfl, rfl⟩

/-- C6: a successful validation outputs only keys declared in the schema
(extraneous input fields are dropped) and contains every declared default
whose field the input omitted. -/
theorem validateInput_strips_and_defaults :
    ∀ (schema : Schema) (inF outF : List (String × JValue)),
      validateInput schema (.jobj inF) = .success (.jobj outF) →
      (∀ p ∈ outF, p.1 ∈ schema.map Prod.fst) ∧
      (∀ n sp d, (n, sp) ∈ schema → sp.dflt = some d → lookupField n inF = none →
        (n, d) ∈ outF) := by
  intro schema inF outF h
  rw [validateInput] at h
  by_cases hc : collectErrors schema inF = []
  · rw [if_pos hc] at h
    injection h with h1
    injection h1 with h2
    constructor
    · intro p hp
      exact collectOutput_keys p (h2 ▸ hp)
    · intro n sp d hmem hdef habs
      exact h2 ▸ collectOutput_default hmem hdef habs
  · rw [if_neg hc] at h
    cases h

/-- C6 witness: validating the empty object against the pagination schema
puts the defaulted limit of 20 into the output. -/
theorem validateInput_strips_and_defaults_witness :
    ("limit", JValue.jnum 20) ∈ [("page", JValue.jnum 1), ("limit", JValue.jnum 20)] :=
  (validateInput_strips_and_defaults paginationSchema []
      [("page", .jnum 1), ("limit", .jnum 20)] rfl).2
    "limit" limitField (.jnum 20) (List.mem_cons_of_mem _ (List.mem_cons_self _ _)) rfl rfl

end CondoStatus
